import Mathlib

/-!
Shallow embedding of the Kiosk authentication core (src/api/main.py).

The repository is a FastAPI application.  The auth core consists of:
  - JWT configuration constants (SECRET_KEY, ALGORITHM, ACCESS_TOKEN_EXPIRE_MINUTES);
  - create_access_token, which mints a signed token with an expiry claim;
  - get_current_user, the cookie-based auth guard;
  - verify_password, a thin wrapper over bcrypt.checkpw;
  - the route handlers overview, login_page, login, logout, admin_dashboard
    and admin_config (the second handler registered on /admin/config).

Modelling choices, each matched to the source:
  - Time is Int unix seconds.  datetime.now(timezone.utc) becomes a `now`
    parameter; timedelta values become second counts.
  - A JWT is modelled abstractly: `Token.signed payload key` stands for a
    structurally well-formed JWS signed with `key`; `Token.garbage raw`
    stands for any string that is not a decodable JWT.  jwt.encode from
    python-jose always produces the signed form.
  - jwt.decode (python-jose, algorithms=[HS256], default options) raises
    JWTError when the token is malformed or the signature does not verify,
    and its exp validation raises ExpiredSignatureError only when
    exp < now - leeway with leeway = 0, i.e. a token whose exp equals the
    current second is still accepted; a payload without an exp claim is
    accepted (require_exp is off by default).  jwtDecode below reproduces
    exactly this.
  - bcrypt.checkpw is an external C library call; it is threaded through as
    an explicit function parameter `checkpw` so that the login state machine
    stays executable and unstubbed.
  - The database session is a list of User rows; the SQLAlchemy query
    `db.query(User).filter(User.username == name).first()` is List.find?.
  - Responses are modelled by what the handlers construct: a template
    render (with the context data the handler passes), a RedirectResponse,
    or an HTMLResponse with an optional HX-Redirect header plus the cookies
    it sets and deletes.
-/

namespace Kiosk

/-- JWT configuration from main.py lines 15-17. -/
def SECRET_KEY : String := "your-secret-key"

def ALGORITHM : String := "HS256"

def ACCESS_TOKEN_EXPIRE_MINUTES : Int := 30

/-- users table row: id, unique username, bcrypt password hash. -/
structure User where
  id : Int
  username : String
  hashed_password : String
deriving DecidableEq, Repr

/-- kiosk_nodes table row: id, name, content. -/
structure KioskNode where
  id : Int
  name : String
  content : String
deriving DecidableEq, Repr

/-- The decoded JWT payload dict: the optional "sub" claim and the optional
"exp" claim (unix seconds).  create_access_token always sets exp. -/
structure Payload where
  sub : Option String
  exp : Option Int
deriving DecidableEq, Repr

/-- A token string, viewed abstractly: either a well-formed JWS carrying
`payload` and signed with `key`, or a string that is not a decodable JWT
at all. -/
inductive Token where
  | signed (payload : Payload) (key : String)
  | garbage (raw : String)
deriving DecidableEq, Repr

/-- The JWTError cases jwt.decode can raise (python-jose): a malformed or
non-decodable token, a signature that does not verify under the given key,
or an expired signature. -/
inductive JWTError where
  | malformedToken
  | signatureMismatch
  | signatureExpired
deriving DecidableEq, Repr

/-- jwt.encode(to_encode, key, algorithm=HS256): serialize and sign. -/
def jwtEncode (to_encode : Payload) (key : String) : Token :=
  Token.signed to_encode key

/-- jwt.decode(token, key, algorithms=[HS256]) at current time `now`,
with python-jose default options: malformed input and signature mismatch
raise JWTError; exp validation raises only when exp < now (leeway 0), so
exp = now is still accepted, and a missing exp claim is accepted. -/
def jwtDecode (token : Token) (key : String) (now : Int) : Except JWTError Payload :=
  match token with
  | Token.garbage _ => Except.error JWTError.malformedToken
  | Token.signed payload k =>
    if k = key then
      match payload.exp with
      | none => Except.ok payload
      | some e =>
        if e < now then Except.error JWTError.signatureExpired
        else Except.ok payload
    else Except.error JWTError.signatureMismatch

/-- create_access_token (main.py lines 77-85): copy the data dict, set
exp to now + expires_delta (or now + 15 minutes when no delta is given),
and sign with SECRET_KEY. -/
def create_access_token (data : Payload) (now : Int) (expires_delta : Option Int) : Token :=
  let expire : Int :=
    match expires_delta with
    | some d => now + d
    | none => now + 15 * 60
  jwtEncode { data with exp := some expire } SECRET_KEY

/-- db.query(User).filter(User.username == username).first(). -/
def findByUsername (db : List User) (username : String) : Option User :=
  db.find? (fun u => u.username == username)

/-- get_current_user (main.py lines 88-108): read the access_token cookie;
absent cookie, any JWTError from decoding, a payload without "sub", or an
unknown subject all yield None; otherwise the full user row. -/
def get_current_user (db : List User) (cookie : Option Token) (now : Int) : Option User :=
  match cookie with
  | none => none
  | some token =>
    match jwtDecode token SECRET_KEY now with
    | Except.error _ => none
    | Except.ok payload =>
      match payload.sub with
      | none => none
      | some username => findByUsername db username

/-- verify_password (main.py lines 112-115): delegate to bcrypt.checkpw,
passed in explicitly since it is an external library call. -/
def verify_password (checkpw : String → String → Bool)
    (plain_password hashed_password : String) : Bool :=
  checkpw plain_password hashed_password

/-- One response.set_cookie(key, value, httponly, max_age) call. -/
structure SetCookie where
  key : String
  value : Token
  httponly : Bool
  max_age : Option Int
deriving DecidableEq, Repr

/-- The responses the handlers construct: a template render with its
context data, a RedirectResponse, or an HTMLResponse with an optional
HX-Redirect header and the cookies it sets and deletes. -/
inductive Response where
  | templateResponse (templateName : String) (nodes : List KioskNode) (user : Option User)
  | redirectResponse (url : String) (statusCode : Nat)
  | htmlResponse (content : String) (statusCode : Nat) (hxRedirect : Option String)
      (setCookies : List SetCookie) (deletedCookies : List String)
deriving DecidableEq, Repr

/-- The cookies a response sets (set_cookie is only ever called on an
HTMLResponse in the source). -/
def Response.cookiesSet : Response → List SetCookie
  | Response.htmlResponse _ _ _ cs _ => cs
  | _ => []

/-- The cookies a response deletes. -/
def Response.cookiesDeleted : Response → List String
  | Response.htmlResponse _ _ _ _ ds => ds
  | _ => []

/-- The HTTP status code of a response (TemplateResponse defaults to 200). -/
def Response.status : Response → Nat
  | Response.templateResponse _ _ _ => 200
  | Response.redirectResponse _ s => s
  | Response.htmlResponse _ s _ _ _ => s

/-- GET / (main.py lines 119-124): render index.html over all stored
nodes.  The handler never reads the access_token cookie; it is a parameter
here only so that insensitivity to it can be stated. -/
def overview (_cookie : Option Token) (db_nodes : List KioskNode) : Response :=
  Response.templateResponse "index.html" db_nodes none

/-- GET /admin/login (main.py lines 127-134): redirect authenticated users
to /admin, otherwise render the login page. -/
def login_page (db : List User) (cookie : Option Token) (now : Int) : Response :=
  match get_current_user db cookie now with
  | some _ => Response.redirectResponse "/admin" 302
  | none => Response.templateResponse "login.html" [] none

/-- POST /admin/login (main.py lines 137-163): look up the user; on an
unknown username or failing password render the warning toast; otherwise
mint a token with the configured 30-minute ttl and return an empty 200
HTMLResponse with HX-Redirect /admin and the access_token cookie set
(httponly, max-age = ttl in seconds). -/
def login (checkpw : String → String → Bool) (db : List User)
    (form_username form_password : String) (now : Int) : Response :=
  match findByUsername db form_username with
  | none => Response.templateResponse "/components/toast-warning.html" [] none
  | some user =>
    if verify_password checkpw form_password user.hashed_password then
      let access_token_expires : Int := ACCESS_TOKEN_EXPIRE_MINUTES * 60
      let access_token :=
        create_access_token { sub := some user.username, exp := none } now
          (some access_token_expires)
      Response.htmlResponse "" 200 (some "/admin")
        [{ key := "access_token", value := access_token, httponly := true,
           max_age := some access_token_expires }] []
    else Response.templateResponse "/components/toast-warning.html" [] none

/-- POST /admin/logout (main.py lines 166-171): unconditionally return an
empty 200 HTMLResponse with HX-Redirect / and delete the access_token
cookie; the handler has no auth dependency and never reads the request. -/
def logout (_cookie : Option Token) : Response :=
  Response.htmlResponse "" 200 (some "/") [] ["access_token"]

/-- GET /admin (main.py lines 174-194): anonymous requests are redirected
to /admin/login; authenticated ones get the dashboard over all nodes with
the resolved user in the context. -/
def admin_dashboard (db : List User) (nodes : List KioskNode)
    (cookie : Option Token) (now : Int) : Response :=
  match get_current_user db cookie now with
  | none => Response.redirectResponse "/admin/login" 302
  | some user => Response.templateResponse "dashboard.html" nodes (some user)

/-- GET /admin/config (main.py lines 197-210): same guard and render as
the dashboard handler, without the cache-control headers. -/
def admin_config (db : List User) (nodes : List KioskNode)
    (cookie : Option Token) (now : Int) : Response :=
  match get_current_user db cookie now with
  | none => Response.redirectResponse "/admin/login" 302
  | some user => Response.templateResponse "dashboard.html" nodes (some user)

/-- The two ways a login submission fails: unknown username, or a stored
user whose hash rejects the submitted password. -/
def loginFailure (checkpw : String → String → Bool) (db : List User)
    (username password : String) : Prop :=
  findByUsername db username = none ∨
    ∃ u, findByUsername db username = some u ∧ checkpw password u.hashed_password = false

/-! ## Theorems -/

/-- Helper: a user found by username carries that username. -/
theorem findByUsername_username {db : List User} {name : String} {u : User}
    (h : findByUsername db name = some u) : u.username = name := by
  have hp := List.find?_some h
  simpa using hp

/-- Helper: a user found by username is a stored record. -/
theorem findByUsername_mem {db : List User} {name : String} {u : User}
    (h : findByUsername db name = some u) : u ∈ db :=
  List.mem_of_find?_eq_some h

/-- Helper: both failure causes of a login submission render the warning
toast, with no cookie attached. -/
theorem login_failure_toast (checkpw : String → String → Bool) (db : List User)
    (username password : String) (now : Int)
    (h : loginFailure checkpw db username password) :
    login checkpw db username password now =
      Response.templateResponse "/components/toast-warning.html" [] none := by
  rcases h with h | ⟨u, hu, hpw⟩
  · simp [login, h]
  · simp [login, hu, verify_password, hpw]

/-- C1: get_current_user is total and fail-closed.  It always returns an
optional user (never an exception value): None when the access_token
cookie is absent, None when jwt.decode fails (malformed token, bad
signature, or expired), None when the decoded payload has no subject or
the subject matches no stored user, and otherwise the resolved user. -/
theorem C1_get_current_user_fail_closed (db : List User) (cookie : Option Token)
    (now : Int) :
    (cookie = none → get_current_user db cookie now = none)
    ∧ (∀ t, cookie = some t → (jwtDecode t SECRET_KEY now).isOk = false →
        get_current_user db cookie now = none)
    ∧ (∀ t p name, cookie = some t → jwtDecode t SECRET_KEY now = Except.ok p →
        p.sub = some name → findByUsername db name = none →
        get_current_user db cookie now = none)
    ∧ (get_current_user db cookie now = none ∨
        ∃ u, get_current_user db cookie now = some u) := by
  refine ⟨?_, ?_, ?_, ?_⟩
  · intro h; simp [get_current_user, h]
  · intro t ht hdec
    subst ht
    cases hd : jwtDecode t SECRET_KEY now with
    | error e => simp [get_current_user, hd]
    | ok p => rw [hd] at hdec; simp [Except.isOk, Except.toBool] at hdec
  · intro t p name ht hdec hsub hfind
    subst ht
    simp [get_current_user, hdec, hsub, hfind]
  · cases h : get_current_user db cookie now with
    | none => exact Or.inl rfl
    | some u => exact Or.inr ⟨u, rfl⟩

/-- C1 witness: a request with no cookie resolves to Anonymous. -/
theorem C1_witness : get_current_user [] none 0 = none :=
  (C1_get_current_user_fail_closed [] none 0).1 rfl

/-- C7: logout is unconditional and total: whatever cookie the request
carries (valid, invalid or absent), the handler returns the same 200
response, deletes the access_token cookie, and sets no cookie. -/
theorem C7_logout_unconditional (cookie : Option Token) :
    logout cookie = logout none
    ∧ (logout cookie).status = 200
    ∧ (logout cookie).cookiesDeleted = ["access_token"]
    ∧ (logout cookie).cookiesSet = [] := by
  exact ⟨rfl, rfl, rfl, rfl⟩

/-- C10: the public overview endpoint performs no authentication: two
requests differing only in their access_token cookie render identically,
and the response is a fixed function of the stored nodes. -/
theorem C10_overview_ignores_cookie (c1 c2 : Option Token) (nodes : List KioskNode) :
    overview c1 nodes = overview c2 nodes
    ∧ overview c1 nodes = Response.templateResponse "index.html" nodes none :=
  ⟨rfl, rfl⟩

/-- C9 counterexample: called without an explicit ttl, create_access_token
sets the expiry to now + 15 minutes (900 s), not now + the configured
ACCESS_TOKEN_EXPIRE_MINUTES = 30 minutes (1800 s). -/
theorem C9_counterexample :
    create_access_token { sub := some "admin", exp := none } 0 none =
      Token.signed { sub := some "admin", exp := some 900 } SECRET_KEY
    ∧ (900 : Int) ≠ ACCESS_TOKEN_EXPIRE_MINUTES * 60 := by
  exact ⟨rfl, by decide⟩

/-- C9 (amended): without an explicit ttl the issued expiry is now + 15
minutes, a hard-coded fallback; the configured 30-minute ttl takes effect
only when passed explicitly, as the login handler does. -/
theorem C9_default_ttl (data : Payload) (now : Int) :
    create_access_token data now none =
      Token.signed { sub := data.sub, exp := some (now + 15 * 60) } SECRET_KEY
    ∧ (∀ d : Int, create_access_token data now (some d) =
        Token.signed { sub := data.sub, exp := some (now + d) } SECRET_KEY) := by
  exact ⟨rfl, fun d => rfl⟩

/-- C5: route access policy.  Both protected pages redirect anonymous
requests to the login page with a 302 (never a 200 with empty state), and
the login page redirects authenticated requests to the admin landing
page. -/
theorem C5_route_access_policy (db : List User) (nodes : List KioskNode)
    (cookie : Option Token) (now : Int) :
    (get_current_user db cookie now = none →
      admin_dashboard db nodes cookie now = Response.redirectResponse "/admin/login" 302
      ∧ admin_config db nodes cookie now = Response.redirectResponse "/admin/login" 302)
    ∧ (∀ u, get_current_user db cookie now = some u →
      login_page db cookie now = Response.redirectResponse "/admin" 302) := by
  constructor
  · intro h
    exact ⟨by simp [admin_dashboard, h], by simp [admin_config, h]⟩
  · intro u h
    simp [login_page, h]

/-- C5 witness: an anonymous request to /admin and /admin/config is
redirected to the login page. -/
theorem C5_witness :
    admin_dashboard [] [] none 0 = Response.redirectResponse "/admin/login" 302
    ∧ admin_config [] [] none 0 = Response.redirectResponse "/admin/login" 302 :=
  (C5_route_access_policy [] [] none 0).1 rfl

/-- C4: failed login is generic and cookie-free: any two failing
submissions (unknown username or wrong password, at any times) produce
the identical response, and that response sets no cookie. -/
theorem C4_login_failure_generic (checkpw : String → String → Bool) (db : List User)
    (u1 p1 u2 p2 : String) (n1 n2 : Int)
    (h1 : loginFailure checkpw db u1 p1) (h2 : loginFailure checkpw db u2 p2) :
    login checkpw db u1 p1 n1 = login checkpw db u2 p2 n2
    ∧ (login checkpw db u1 p1 n1).cookiesSet = [] := by
  rw [login_failure_toast checkpw db u1 p1 n1 h1, login_failure_toast checkpw db u2 p2 n2 h2]
  exact ⟨rfl, rfl⟩

/-- C4 witness: an unknown-username failure and a wrong-password failure
are indistinguishable and set no cookie. -/
theorem C4_witness :
    login (fun _ _ => false) [{ id := 1, username := "admin", hashed_password := "h" }]
        "nobody" "x" 0 =
      login (fun _ _ => false) [{ id := 1, username := "admin", hashed_password := "h" }]
        "admin" "y" 7
    ∧ (login (fun _ _ => false) [{ id := 1, username := "admin", hashed_password := "h" }]
        "nobody" "x" 0).cookiesSet = [] :=
  C4_login_failure_generic (fun _ _ => false)
    [{ id := 1, username := "admin", hashed_password := "h" }] "nobody" "x" "admin" "y" 0 7
    (Or.inl (by decide))
    (Or.inr ⟨{ id := 1, username := "admin", hashed_password := "h" }, by decide, rfl⟩)

/-- C6: on every successful login the response sets exactly one cookie,
named access_token, carrying the issued token, HTTP-only, with max-age
equal to the 30-minute ttl in seconds. -/
theorem C6_login_success_cookie (checkpw : String → String → Bool) (db : List User)
    (username password : String) (now : Int) (u : User)
    (hu : findByUsername db username = some u)
    (hpw : checkpw password u.hashed_password = true) :
    (login checkpw db username password now).cookiesSet =
      [{ key := "access_token",
         value := create_access_token { sub := some u.username, exp := none } now
           (some (ACCESS_TOKEN_EXPIRE_MINUTES * 60)),
         httponly := true,
         max_age := some (ACCESS_TOKEN_EXPIRE_MINUTES * 60) }] := by
  simp [login, hu, verify_password, hpw, Response.cookiesSet]

/-- C6 witness: a concrete successful login sets exactly the access_token
cookie. -/
theorem C6_witness :
    (login (fun _ _ => true) [{ id := 1, username := "admin", hashed_password := "h" }]
        "admin" "password" 0).cookiesSet =
      [{ key := "access_token",
         value := create_access_token { sub := some "admin", exp := none } 0
           (some (ACCESS_TOKEN_EXPIRE_MINUTES * 60)),
         httponly := true,
         max_age := some (ACCESS_TOKEN_EXPIRE_MINUTES * 60) }] :=
  C6_login_success_cookie (fun _ _ => true)
    [{ id := 1, username := "admin", hashed_password := "h" }] "admin" "password" 0
    { id := 1, username := "admin", hashed_password := "h" } (by decide) rfl

/-- C2: token codec round-trip.  For credentials matching a stored record,
login attaches a token whose decode (same signing key, at any time up to
the expiry) yields subject = the submitted username and expiry = issuance
time + the configured 30-minute ttl. -/
theorem C2_login_token_roundtrip (checkpw : String → String → Bool) (db : List User)
    (username password : String) (now : Int) (u : User)
    (hu : findByUsername db username = some u)
    (hpw : checkpw password u.hashed_password = true) :
    ∃ tok : Token,
      (login checkpw db username password now).cookiesSet =
        [{ key := "access_token", value := tok, httponly := true,
           max_age := some (ACCESS_TOKEN_EXPIRE_MINUTES * 60) }]
      ∧ ∀ t : Int, t ≤ now + ACCESS_TOKEN_EXPIRE_MINUTES * 60 →
          jwtDecode tok SECRET_KEY t =
            Except.ok { sub := some username,
                        exp := some (now + ACCESS_TOKEN_EXPIRE_MINUTES * 60) } := by
  refine ⟨create_access_token { sub := some u.username, exp := none } now
    (some (ACCESS_TOKEN_EXPIRE_MINUTES * 60)), ?_, ?_⟩
  · exact C6_login_success_cookie checkpw db username password now u hu hpw
  · intro t ht
    have hname : u.username = username := findByUsername_username hu
    have hexp : ¬ (now + ACCESS_TOKEN_EXPIRE_MINUTES * 60 < t) := not_lt.mpr ht
    simp [create_access_token, jwtEncode, jwtDecode, hname, hexp]

/-- C2 witness: the round-trip at a concrete store, credential pair and
issuance time. -/
theorem C2_witness :
    ∃ tok : Token,
      (login (fun _ _ => true) [{ id := 1, username := "admin", hashed_password := "h" }]
          "admin" "password" 0).cookiesSet =
        [{ key := "access_token", value := tok, httponly := true,
           max_age := some (ACCESS_TOKEN_EXPIRE_MINUTES * 60) }]
      ∧ ∀ t : Int, t ≤ 0 + ACCESS_TOKEN_EXPIRE_MINUTES * 60 →
          jwtDecode tok SECRET_KEY t =
            Except.ok { sub := some "admin",
                        exp := some (0 + ACCESS_TOKEN_EXPIRE_MINUTES * 60) } :=
  C2_login_token_roundtrip (fun _ _ => true)
    [{ id := 1, username := "admin", hashed_password := "h" }] "admin" "password" 0
    { id := 1, username := "admin", hashed_password := "h" } (by decide) rfl

/-- C3 counterexample: the claim demands rejection whenever the embedded
expiry is at or before the current time, but a well-signed token whose
exp equals the current second still decodes successfully (python-jose
rejects only exp strictly below now). -/
theorem C3_counterexample :
    (5 : Int) ≤ 5
    ∧ jwtDecode (Token.signed { sub := some "admin", exp := some 5 } SECRET_KEY)
        SECRET_KEY 5 =
      Except.ok { sub := some "admin", exp := some 5 } := by
  exact ⟨le_refl 5, rfl⟩

/-- C3 (amended): decoding rejects exactly when the token is not a
decodable JWT, its signing key differs from ours, or its embedded expiry
is strictly before the current time; a well-signed token that is unexpired
in this strict sense decodes to its original payload. -/
theorem C3_decode_rejects_iff (t : Token) (now : Int) :
    ((jwtDecode t SECRET_KEY now).isOk = false ↔
      ((∃ raw, t = Token.garbage raw)
        ∨ (∃ p k, t = Token.signed p k ∧ k ≠ SECRET_KEY)
        ∨ (∃ p e, t = Token.signed p SECRET_KEY ∧ p.exp = some e ∧ e < now)))
    ∧ (∀ p, t = Token.signed p SECRET_KEY →
        (∀ e, p.exp = some e → now ≤ e) →
        jwtDecode t SECRET_KEY now = Except.ok p) := by
  constructor
  · cases t with
    | garbage raw =>
      simp [jwtDecode, Except.isOk, Except.toBool]
    | signed p k =>
      by_cases hk : k = SECRET_KEY
      · subst hk
        cases hexp : p.exp with
        | none =>
          simp [jwtDecode, hexp, Except.isOk, Except.toBool]
        | some e =>
          by_cases he : e < now
          · simp [jwtDecode, hexp, he, Except.isOk, Except.toBool]
          · simp [jwtDecode, hexp, he, Except.isOk, Except.toBool]
      · simp [jwtDecode, hk, Except.isOk, Except.toBool]
        exact ⟨p, k, ⟨rfl, rfl⟩, hk⟩
  · rintro p rfl hunexpired
    cases hexp : p.exp with
    | none => simp [jwtDecode, hexp]
    | some e =>
      have hge : now ≤ e := hunexpired e hexp
      simp [jwtDecode, hexp, not_lt.mpr hge]

/-- C3 witness: a non-decodable token is rejected, and a well-signed
unexpired token decodes to its payload. -/
theorem C3_witness :
    (jwtDecode (Token.garbage "not-a-jwt") SECRET_KEY 0).isOk = false
    ∧ jwtDecode (Token.signed { sub := some "admin", exp := some 9 } SECRET_KEY)
        SECRET_KEY 3 =
      Except.ok { sub := some "admin", exp := some 9 } :=
  ⟨(C3_decode_rejects_iff (Token.garbage "not-a-jwt") 0).1.mpr
      (Or.inl ⟨"not-a-jwt", rfl⟩),
    (C3_decode_rejects_iff
        (Token.signed { sub := some "admin", exp := some 9 } SECRET_KEY) 3).2
      { sub := some "admin", exp := some 9 } rfl
      (fun e he => by cases he; decide)⟩

/-- C8 counterexample: the guard hands the route handler the stored user
record with its password hash still present, contradicting the claim that
the hash is stripped. -/
theorem C8_counterexample :
    get_current_user [{ id := 1, username := "admin", hashed_password := "stored-bcrypt-hash" }]
        (some (Token.signed { sub := some "admin", exp := some 100 } SECRET_KEY)) 0 =
      some { id := 1, username := "admin", hashed_password := "stored-bcrypt-hash" }
    ∧ (get_current_user
          [{ id := 1, username := "admin", hashed_password := "stored-bcrypt-hash" }]
          (some (Token.signed { sub := some "admin", exp := some 100 } SECRET_KEY)) 0).map
        User.hashed_password = some "stored-bcrypt-hash" := by
  exact ⟨by decide, by decide⟩

/-- C8 (amended): a resolved Identity is the full stored user record,
password hash included: whenever the guard returns a user, that value is
literally one of the rows of the credential store. -/
theorem C8_identity_is_full_record (db : List User) (cookie : Option Token)
    (now : Int) (u : User) (h : get_current_user db cookie now = some u) :
    u ∈ db := by
  cases cookie with
  | none => simp [get_current_user] at h
  | some t =>
    cases hd : jwtDecode t SECRET_KEY now with
    | error e => simp [get_current_user, hd] at h
    | ok p =>
      cases hs : p.sub with
      | none => simp [get_current_user, hd, hs] at h
      | some name =>
        simp only [get_current_user, hd, hs] at h
        exact findByUsername_mem h

/-- C8 witness: the amended claim at a concrete store and token. -/
theorem C8_witness :
    ({ id := 1, username := "admin", hashed_password := "h" } : User) ∈
      [({ id := 1, username := "admin", hashed_password := "h" } : User)] :=
  C8_identity_is_full_record
    [{ id := 1, username := "admin", hashed_password := "h" }]
    (some (Token.signed { sub := some "admin", exp := some 1 } SECRET_KEY)) 0
    { id := 1, username := "admin", hashed_password := "h" } (by decide)

end Kiosk
